/-
  Verification of the challenge-negotiation / result-settlement core of the
  gaming-platform backend (src/main.py, src/schemas.py).

  Shallow embedding: each FastAPI handler that the claims touch is translated
  into a pure Lean function over explicit entity values.  The document store
  is modelled as an association list `List (String × τ)` from identifiers to
  documents; `find_one` is `findOne`, `update_one` with a `$set` on a single
  field is a targeted record update (`setStats`).  Handlers operating on a
  single already-looked-up document take that document as an argument (the
  `NotFound` path for an unknown id is outside the per-document contracts
  stated by the claims, which all begin "for every existing ...").
  Machine integers are `Int` (Python ints are unbounded).  Error kinds follow
  the spec's taxonomy §7, assigned per raise site of the code:
  404 "... not found" ↦ notFound, 400 "Both teams must exist" ↦
  invalidReference, the remaining 400 domain-rule raises ↦
  constraintViolation, and the `oid` helper's 400 ↦ invalidId (identifiers
  are opaque strings here, so `invalidId` never arises in the model).
-/
import Mathlib

namespace GamingPlatform

/-- Challenge lifecycle states; `Literal[...]` of `Challenge.status` in
src/schemas.py. -/
inductive ChallengeStatus
  | proposed | negotiating | approved | booked | completed | rejected | cancelled
deriving DecidableEq, Repr

/-- Booking states; `Literal["pending", "confirmed", "cancelled"]` in
src/schemas.py. -/
inductive BookingStatus
  | pending | confirmed | cancelled
deriving DecidableEq, Repr

/-- Match status; `Literal["scheduled", "completed"]` in src/schemas.py. -/
inductive MatchStatus
  | scheduled | completed
deriving DecidableEq, Repr

/-- `MatchFormat = Literal["BO1", "BO2", "BO3", "BO5"]` (src/schemas.py);
request fields carrying a format are pattern-validated to this set, so the
closed enumeration is faithful. -/
inductive MatchFormat
  | BO1 | BO2 | BO3 | BO5
deriving DecidableEq, Repr

/-- `ApproveRequest.team_role`, pattern-validated to
`^(challenger|opponent)$` (src/main.py). -/
inductive Role
  | challenger | opponent
deriving DecidableEq, Repr

/-- Leaderboard `scope` query parameter, pattern-validated to
`^(local|global)$` (src/main.py).  `local` is a Lean keyword, hence the
suffixed constructor names. -/
inductive Scope
  | localScope | globalScope
deriving DecidableEq, Repr

/-- Client-facing error kinds, spec §7 taxonomy; see the header comment for
the mapping from the code's raise sites. -/
inductive ApiError
  | invalidId | invalidReference | constraintViolation | notFound
deriving DecidableEq, Repr

/-- The `stats` payload of a Team (default factory in src/schemas.py).
Values are `Int`: Python ints, unbounded, with no sign restriction imposed
by the code. -/
structure Stats where
  matchesPlayed : Int
  wins : Int
  losses : Int
  draws : Int
  points : Int
deriving DecidableEq, Repr

/-- `Team` (src/schemas.py).  Timestamps and other opaque scalars are kept
as `String`. -/
structure Team where
  name : String
  game : String
  country : String
  captain_user_id : String
  member_user_ids : List String
  achievements : List String
  stats : Stats
deriving DecidableEq, Repr

/-- The `approvals` dict of a Challenge, `{"challenger": bool, "opponent":
bool}` (src/schemas.py default factory, src/main.py writers). -/
structure Approvals where
  challenger : Bool
  opponent : Bool
deriving DecidableEq, Repr

/-- `Challenge` (src/schemas.py).  `proposed_datetime` is an opaque ISO
string. -/
structure Challenge where
  challenger_team_id : String
  opponent_team_id : String
  game : String
  country : String
  proposed_datetime : Option String
  format : MatchFormat
  venue_id : Option String
  status : ChallengeStatus
  approvals : Approvals
  notes : Option String
deriving DecidableEq, Repr

/-- `Booking` (src/schemas.py). -/
structure Booking where
  challenge_id : String
  venue_id : String
  start_datetime : String
  end_datetime : Option String
  status : BookingStatus
deriving DecidableEq, Repr

/-- The `result` payload of a Match:
`{winner_team_id, scores: {a, b}}` (src/main.py `record_match_result`). -/
structure MatchResult where
  winner_team_id : String
  score_a : Int
  score_b : Int
deriving DecidableEq, Repr

/-- `Match` (src/schemas.py). -/
structure Match where
  challenge_id : String
  venue_id : String
  game : String
  format : MatchFormat
  team_a_id : String
  team_b_id : String
  result : Option MatchResult
  status : MatchStatus
deriving DecidableEq, Repr

/-- Point lookup in a collection: `db[coll].find_one({"_id": oid(id)})`. -/
def findOne (docs : List (String × α)) (id : String) : Option α :=
  match docs with
  | [] => none
  | (k, v) :: rest => if k = id then some v else findOne rest id

/-- The schema's default `stats` factory: all counters zero
(src/schemas.py). -/
def defaultStats : Stats :=
  { matchesPlayed := 0, wins := 0, losses := 0, draws := 0, points := 0 }

/-- `create_team` (src/main.py): the handler mutates the payload —
`if payload.captain_user_id and payload.captain_user_id not in
payload.member_user_ids: payload.member_user_ids.append(...)` — and stores
it; the returned value is the stored document.  Python string truthiness:
the guard fires only for a non-empty captain id. -/
def create_team (payload : Team) : Team :=
  if payload.captain_user_id ≠ "" ∧ payload.captain_user_id ∉ payload.member_user_ids then
    { payload with member_user_ids := payload.member_user_ids ++ [payload.captain_user_id] }
  else payload

/-- `ProposeChallengeRequest` (src/main.py). -/
structure ProposeChallengeRequest where
  challenger_team_id : String
  opponent_team_id : String
  game : String
  country : String
  proposed_datetime : Option String
  format : MatchFormat
  venue_id : Option String
  notes : Option String
deriving DecidableEq, Repr

/-- `propose_challenge` (src/main.py): looks up both teams, raises 400 if
either is missing, 400 for a country or game mismatch, and otherwise stores
a fresh Challenge with `status="proposed"` and both approvals `False`. -/
def propose_challenge (teams : List (String × Team)) (payload : ProposeChallengeRequest) :
    Except ApiError Challenge :=
  match findOne teams payload.challenger_team_id, findOne teams payload.opponent_team_id with
  | some t1, some t2 =>
    if t1.country ≠ t2.country ∨ t1.country ≠ payload.country then
      .error .constraintViolation
    else if t1.game ≠ t2.game ∨ t1.game ≠ payload.game then
      .error .constraintViolation
    else
      .ok { challenger_team_id := payload.challenger_team_id
            opponent_team_id := payload.opponent_team_id
            game := payload.game
            country := payload.country
            proposed_datetime := payload.proposed_datetime
            format := payload.format
            venue_id := payload.venue_id
            status := .proposed
            approvals := { challenger := false, opponent := false }
            notes := payload.notes }
  | _, _ => .error .invalidReference

/-- `NegotiateChallengeRequest` (src/main.py): every field optional. -/
structure NegotiateChallengeRequest where
  proposed_datetime : Option String
  format : Option MatchFormat
  venue_id : Option String
  notes : Option String
deriving DecidableEq, Repr

/-- `negotiate_challenge` (src/main.py), acting on the found document: the
`$set` update always contains `status="negotiating"` and a reset `approvals`
map, plus exactly the payload fields that are not `None`. -/
def negotiate_challenge (ch : Challenge) (payload : NegotiateChallengeRequest) : Challenge :=
  { ch with
    status := .negotiating
    proposed_datetime :=
      match payload.proposed_datetime with
      | some d => some d
      | none => ch.proposed_datetime
    format :=
      match payload.format with
      | some f => f
      | none => ch.format
    venue_id :=
      match payload.venue_id with
      | some v => some v
      | none => ch.venue_id
    notes :=
      match payload.notes with
      | some n => some n
      | none => ch.notes
    approvals := { challenger := false, opponent := false } }

/-- `approvals[payload.team_role] = True` (src/main.py
`approve_challenge`). -/
def Approvals.setTrue (a : Approvals) : Role → Approvals
  | .challenger => { a with challenger := true }
  | .opponent => { a with opponent := true }

/-- Read one side of the approvals map. -/
def Approvals.get (a : Approvals) : Role → Bool
  | .challenger => a.challenger
  | .opponent => a.opponent

/-- `approve_challenge` (src/main.py), acting on the found document: sets
the role's approval, then
`status = "approved" if approvals.get("challenger") and
approvals.get("opponent") else ch.get("status", "proposed")`. -/
def approve_challenge (ch : Challenge) (role : Role) : Challenge :=
  let approvals := ch.approvals.setTrue role
  let status := if approvals.challenger && approvals.opponent then
      ChallengeStatus.approved
    else ch.status
  { ch with approvals := approvals, status := status }

/-- `CreateBookingRequest` (src/main.py). -/
structure CreateBookingRequest where
  venue_id : String
  start_datetime : String
  end_datetime : Option String
deriving DecidableEq, Repr

/-- `create_booking_for_challenge` (src/main.py), acting on the found
Challenge (`challenge_id` is the path parameter): 400 when
`ch["status"] not in ["approved", "negotiating", "proposed"]`; otherwise a
pending Booking is inserted and the Challenge gets
`{"status": "booked", "venue_id": payload.venue_id}`.  No venue lookup and
no approvals check occur anywhere in the handler. -/
def create_booking_for_challenge (ch : Challenge) (challenge_id : String)
    (payload : CreateBookingRequest) : Except ApiError (Booking × Challenge) :=
  if ¬ (ch.status = .approved ∨ ch.status = .negotiating ∨ ch.status = .proposed) then
    .error .constraintViolation
  else
    .ok ({ challenge_id := challenge_id
           venue_id := payload.venue_id
           start_datetime := payload.start_datetime
           end_datetime := payload.end_datetime
           status := .pending },
         { ch with status := .booked, venue_id := some payload.venue_id })

/-- `confirm_booking` (src/main.py), acting on the found Booking and the
Challenge it references via `booking["challenge_id"]` (passed in here as
`ch`): the Booking's status becomes `confirmed` or `cancelled` per the
flag, and only in the cancelled case the owning Challenge is set to
`status="approved"` — unconditionally, with no check of its prior
status. -/
def confirm_booking (booking : Booking) (ch : Challenge) (confirm : Bool) :
    Booking × Challenge :=
  let new_status := if confirm then BookingStatus.confirmed else BookingStatus.cancelled
  ({ booking with status := new_status },
   if new_status = .cancelled then { ch with status := .approved } else ch)

/-- The read-modify-write body of the local `update_stats` helper in
`record_match_result` (src/main.py): `matches += 1`, then one of the
draw / win / loss branches. -/
def bumpStats (s : Stats) (won : Bool) (draw : Bool) : Stats :=
  let s1 := { s with matchesPlayed := s.matchesPlayed + 1 }
  if draw then
    { s1 with draws := s1.draws + 1, points := s1.points + 1 }
  else if won then
    { s1 with wins := s1.wins + 1, points := s1.points + 3 }
  else
    { s1 with losses := s1.losses + 1 }

/-- `db["team"].update_one({"_id": oid(team_id)}, {"$set": {"stats":
stats}})`: replace the stats of the document keyed `team_id`. -/
def setStats (teams : List (String × Team)) (team_id : String) (s : Stats) :
    List (String × Team) :=
  match teams with
  | [] => []
  | (k, v) :: rest =>
    (k, if k = team_id then { v with stats := s } else v) :: setStats rest team_id s

/-- The local `update_stats(team_id, won, draw)` helper of
`record_match_result` (src/main.py): a missing team is silently skipped;
otherwise its stats are bumped and written back. -/
def update_stats (teams : List (String × Team)) (team_id : String) (won : Bool)
    (draw : Bool) : List (String × Team) :=
  match findOne teams team_id with
  | none => teams
  | some team => setStats teams team_id (bumpStats team.stats won draw)

/-- `record_match_result` (src/main.py), acting on the found Challenge
(`cid` is `payload.challenge_id`): 400 when the winner is not one of the two
team ids; otherwise inserts a completed Match snapshot, sets the Challenge
`status="completed"`, and applies `update_stats` to both teams (draw/draw
when the scores tie, win then loss otherwise, in the code's call order).
Returns the Match together with the updated Challenge and team store. -/
def record_match_result (ch : Challenge) (teams : List (String × Team)) (cid : String)
    (winner_team_id : String) (score_a score_b : Int) :
    Except ApiError (Match × Challenge × List (String × Team)) :=
  let team_a := ch.challenger_team_id
  let team_b := ch.opponent_team_id
  if ¬ (winner_team_id = team_a ∨ winner_team_id = team_b) then
    .error .constraintViolation
  else
    let m : Match :=
      { challenge_id := cid
        venue_id := ch.venue_id.getD ""
        game := ch.game
        format := ch.format
        team_a_id := team_a
        team_b_id := team_b
        result := some { winner_team_id := winner_team_id, score_a := score_a, score_b := score_b }
        status := .completed }
    let teams' :=
      if score_a = score_b then
        update_stats (update_stats teams team_a false true) team_b false true
      else
        let loser := if winner_team_id = team_a then team_b else team_a
        update_stats (update_stats teams winner_team_id true false) loser false false
    .ok (m, { ch with status := .completed }, teams')

/-- Python truthiness of an `Optional[str]` query parameter: `if game:` /
`if not country:` treat both `None` and `""` as absent. -/
def truthy : Option String → Bool
  | none => false
  | some s => decide (s ≠ "")

/-- The exact-match conjunction `db["team"].find(filt)` applies, for the two
fields the leaderboard may place in `filt`. -/
def matchesFilt (gameFilt countryFilt : Option String) (t : Team) : Bool :=
  (match gameFilt with
   | none => true
   | some g => decide (t.game = g)) &&
  (match countryFilt with
   | none => true
   | some c => decide (t.country = c))

/-- The one row of the leaderboard projection (src/main.py `leaderboard`
response comprehension). -/
structure LeaderboardEntry where
  id : String
  name : String
  game : String
  country : String
  stats : Stats
deriving DecidableEq, Repr

/-- The sort key `(stats.points, stats.wins)` of src/main.py
`leaderboard`. -/
def teamKey (t : Team) : Int × Int := (t.stats.points, t.stats.wins)

/-- Lexicographic `≥` on sort keys: `a` may precede `b` in the descending
order. -/
def lexGe (a b : Int × Int) : Bool :=
  decide (b.1 < a.1) || (decide (a.1 = b.1) && decide (b.2 ≤ a.2))

/-- The descending-key comparison used to order two leaderboard rows. -/
def lbRel (p q : String × Team) : Prop :=
  lexGe (teamKey p.2) (teamKey q.2) = true

instance : DecidableRel lbRel := fun p q =>
  inferInstanceAs (Decidable (lexGe (teamKey p.2) (teamKey q.2) = true))

/-- Project a stored team document to a leaderboard row. -/
def renderTeam (p : String × Team) : LeaderboardEntry :=
  { id := p.1, name := p.2.name, game := p.2.game, country := p.2.country, stats := p.2.stats }

/-- `leaderboard` (src/main.py).  `teams.sort(key=lambda t: (points, wins),
reverse=True)` is CPython's stable sort run descending; a stable sort with
respect to a total transitive comparison is extensionally unique, so it is
embedded as the (stable) insertion sort `List.insertionSort lbRel`, which
places `p` before `q` exactly when `teamKey p ≥lex teamKey q`, keeping
collection order on ties — the same list Python produces.  `filt` gains
`game` only when the parameter is truthy, and `country` only in the
`scope == "local"` branch, which first raises 400 when `country` is not
truthy.  `limit` is modelled as `Nat` (`teams[:limit]` = `List.take`). -/
def leaderboard (teams : List (String × Team)) (scope : Scope)
    (game country : Option String) (limit : Nat) :
    Except ApiError (List LeaderboardEntry) :=
  let gameFilt : Option String := if truthy game then game else none
  match scope with
  | .localScope =>
    if truthy country then
      .ok ((((teams.filter fun p => matchesFilt gameFilt country p.2).insertionSort
        lbRel).take limit).map renderTeam)
    else .error .constraintViolation
  | .globalScope =>
    .ok ((((teams.filter fun p => matchesFilt gameFilt none p.2).insertionSort
      lbRel).take limit).map renderTeam)

/-- Formalisation of claim C7's description of the algorithm, following the
claim's words: filter the collection by the supplied game filter AND by the
supplied country filter (unconditionally, whatever the scope), sort
descending by `(points, wins)`, truncate to `limit`; fail with
`ConstraintViolation` when scope is local and no country is supplied.  To be
compared with `leaderboard` above, which was translated from the code. -/
def leaderboard_claimed (teams : List (String × Team)) (scope : Scope)
    (game country : Option String) (limit : Nat) :
    Except ApiError (List LeaderboardEntry) :=
  match scope, country with
  | .localScope, none => .error .constraintViolation
  | _, _ =>
    .ok ((((teams.filter fun p =>
        (match game with
         | none => true
         | some g => decide (p.2.game = g)) &&
        (match country with
         | none => true
         | some c => decide (p.2.country = c))).insertionSort
      lbRel).take limit).map renderTeam)

/-- First stage of the amended claim's pipeline: filter by the supplied
game filter (an absent or empty game string filters nothing). -/
def gameStep (game : Option String) (teams : List (String × Team)) :
    List (String × Team) :=
  match game with
  | some g => if g = "" then teams else teams.filter fun p => decide (p.2.game = g)
  | none => teams

/-- Second stage of the amended claim's pipeline: filter by the supplied
country filter, but only when the scope is local. -/
def countryStep (scope : Scope) (country : Option String)
    (teams : List (String × Team)) : List (String × Team) :=
  if scope = .localScope then
    match country with
    | some c => teams.filter fun p => decide (p.2.country = c)
    | none => teams
  else teams

/-- The amended description of the leaderboard algorithm, following the
spec's words with the one forced change: filter by the supplied (non-empty)
game filter, and by the supplied country filter only when scope is local —
a country supplied at global scope is ignored; then sort descending by
`(points, wins)` and truncate to `limit`; fail with `ConstraintViolation`
exactly when scope is local and no (non-empty) country is supplied. -/
def leaderboard_amended_spec (teams : List (String × Team)) (scope : Scope)
    (game country : Option String) (limit : Nat) :
    Except ApiError (List LeaderboardEntry) :=
  if scope = .localScope ∧ truthy country = false then
    .error .constraintViolation
  else
    .ok (List.map renderTeam (List.take limit (List.insertionSort lbRel
      (countryStep scope country (gameStep game teams)))))

/-- The per-team stats invariant of spec §3: all counters non-negative and
`matches = wins + losses + draws`. -/
def statsInv (s : Stats) : Prop :=
  0 ≤ s.matchesPlayed ∧ 0 ≤ s.wins ∧ 0 ≤ s.losses ∧ 0 ≤ s.draws ∧ 0 ≤ s.points ∧
    s.matchesPlayed = s.wins + s.losses + s.draws

instance (s : Stats) : Decidable (statsInv s) := by
  unfold statsInv; infer_instance

/-- The stats delta claim C3 assigns to the winning team:
`{matches+1, wins+1, points+3}`, everything else unchanged. -/
def winGain (s : Stats) : Stats :=
  { matchesPlayed := s.matchesPlayed + 1, wins := s.wins + 1, losses := s.losses,
    draws := s.draws, points := s.points + 3 }

/-- The stats delta claim C3 assigns to the losing team:
`{matches+1, losses+1, points+0}`, everything else unchanged. -/
def lossGain (s : Stats) : Stats :=
  { matchesPlayed := s.matchesPlayed + 1, wins := s.wins, losses := s.losses + 1,
    draws := s.draws, points := s.points }

/-- The stats delta claim C3 assigns to each team of a draw:
`{matches+1, draws+1, points+1}`, everything else unchanged. -/
def drawGain (s : Stats) : Stats :=
  { matchesPlayed := s.matchesPlayed + 1, wins := s.wins, losses := s.losses,
    draws := s.draws + 1, points := s.points + 1 }

/-! ### Helper lemmas about the store operations -/

theorem findOne_setStats_self (teams : List (String × Team)) (id : String) (s : Stats) :
    ∀ t, findOne teams id = some t →
      findOne (setStats teams id s) id = some { t with stats := s } := by
  induction teams with
  | nil => intro t h; simp [findOne] at h
  | cons p rest ih =>
    intro t h
    obtain ⟨k, v⟩ := p
    by_cases hk : k = id
    · subst hk
      simp only [findOne, if_pos rfl] at h
      cases h
      simp [setStats, findOne]
    · simp only [findOne, if_neg hk] at h
      simp only [setStats, findOne, if_neg hk]
      exact ih t h

theorem findOne_setStats_ne (teams : List (String × Team)) (id id' : String) (s : Stats)
    (hne : id' ≠ id) : findOne (setStats teams id s) id' = findOne teams id' := by
  induction teams with
  | nil => rfl
  | cons p rest ih =>
    obtain ⟨k, v⟩ := p
    by_cases hk2 : k = id'
    · have hk : k ≠ id := fun hh => hne (hk2.symm.trans hh)
      simp only [setStats, findOne, if_pos hk2, if_neg hk]
    · simp only [setStats, findOne, if_neg hk2]
      exact ih

theorem update_stats_of_found (teams : List (String × Team)) (id : String) (t : Team)
    (won draw : Bool) (h : findOne teams id = some t) :
    update_stats teams id won draw = setStats teams id (bumpStats t.stats won draw) := by
  simp [update_stats, h]

theorem bumpStats_winGain (s : Stats) : bumpStats s true false = winGain s := rfl

theorem bumpStats_lossGain (s : Stats) : bumpStats s false false = lossGain s := rfl

theorem bumpStats_drawGain (s : Stats) (w : Bool) : bumpStats s w true = drawGain s := rfl

theorem findOne_exists_mem (docs : List (String × Team)) (id : String) (v : Team)
    (h : findOne docs id = some v) : ∃ p ∈ docs, p.2 = v := by
  induction docs with
  | nil => simp [findOne] at h
  | cons q rest ih =>
    obtain ⟨k, w⟩ := q
    by_cases hk : k = id
    · simp [findOne, hk] at h
      exact ⟨(k, w), by simp, h⟩
    · simp only [findOne, if_neg hk] at h
      obtain ⟨p, hp, hpv⟩ := ih h
      exact ⟨p, by simp [hp], hpv⟩

theorem bumpStats_statsInv (s : Stats) (won draw : Bool) (h : statsInv s) :
    statsInv (bumpStats s won draw) := by
  obtain ⟨h1, h2, h3, h4, h5, h6⟩ := h
  cases draw <;> cases won <;> simp [bumpStats, statsInv] <;> omega

theorem setStats_storeInv (teams : List (String × Team)) (id : String) (s : Stats)
    (hs : statsInv s) :
    (∀ p ∈ teams, statsInv p.2.stats) →
    ∀ p ∈ setStats teams id s, statsInv p.2.stats := by
  induction teams with
  | nil => intro _ p hp; simp [setStats] at hp
  | cons q rest ih =>
    intro h p hp
    obtain ⟨k, v⟩ := q
    simp only [setStats, List.mem_cons] at hp
    rcases hp with hp | hp
    · by_cases hk : k = id
      · rw [if_pos hk] at hp
        subst hp
        exact hs
      · rw [if_neg hk] at hp
        subst hp
        exact h (k, v) (by simp)
    · exact ih (fun q hq => h q (by simp [hq])) p hp

theorem update_stats_storeInv (teams : List (String × Team)) (id : String)
    (won draw : Bool) (h : ∀ p ∈ teams, statsInv p.2.stats) :
    ∀ p ∈ update_stats teams id won draw, statsInv p.2.stats := by
  unfold update_stats
  cases hf : findOne teams id with
  | none => exact h
  | some t =>
    have ht : statsInv t.stats := by
      obtain ⟨p, hp, hpv⟩ := findOne_exists_mem teams id t hf
      exact hpv ▸ h p hp
    exact setStats_storeInv teams id _ (bumpStats_statsInv t.stats won draw ht) h

/-! ### Sample entities used by witnesses and counterexamples -/

def ch1 : Challenge :=
  { challenger_team_id := "A", opponent_team_id := "B", game := "g", country := "US",
    proposed_datetime := none, format := .BO3, venue_id := none, status := .proposed,
    approvals := { challenger := false, opponent := false }, notes := none }

def pNone : NegotiateChallengeRequest :=
  { proposed_datetime := none, format := none, venue_id := none, notes := none }

/-! ### Claims -/

/-- Claim C1: for every existing Challenge and role, Approve sets
`approvals[role]` to `true` (leaving the other role's flag alone); the
status is assigned `approved` exactly when both approvals are true after
the call, and otherwise is left at its prior value — in particular a single
approval on a challenge whose approvals were both false (e.g. a fresh
`proposed` one) leaves the status unchanged.  The claim's "becomes
`approved` iff both approvals are true, otherwise left at its prior value"
is formalised as that conditional assignment, the only reading consistent
with its own "otherwise" clause. -/
theorem approve_challenge_spec (ch : Challenge) (r : Role) :
    (approve_challenge ch r).approvals.get r = true ∧
    (∀ r' : Role, r' ≠ r →
      (approve_challenge ch r).approvals.get r' = ch.approvals.get r') ∧
    (((approve_challenge ch r).approvals.challenger &&
        (approve_challenge ch r).approvals.opponent) = true →
      (approve_challenge ch r).status = .approved) ∧
    (((approve_challenge ch r).approvals.challenger &&
        (approve_challenge ch r).approvals.opponent) = false →
      (approve_challenge ch r).status = ch.status) ∧
    (ch.approvals = { challenger := false, opponent := false } →
      (approve_challenge ch r).status = ch.status) := by
  obtain ⟨a, b, c, d, e, f, g, st, appr, n⟩ := ch
  obtain ⟨ac, ao⟩ := appr
  cases r <;> cases ac <;> cases ao <;>
    refine ⟨rfl, ?_, ?_, ?_, ?_⟩ <;>
    first
      | (intro r' hr'
         cases r' <;> simp_all [approve_challenge, Approvals.get, Approvals.setTrue])
      | (intro hx
         simp_all [approve_challenge, Approvals.get, Approvals.setTrue])

/-- Claim C1 witness: approving the challenger on a fresh proposed
challenge marks that approval and leaves the status at `proposed`. -/
theorem approve_challenge_spec_witness :
    (approve_challenge ch1 .challenger).status = ch1.status ∧
    (approve_challenge ch1 .challenger).approvals.get .challenger = true ∧
    (approve_challenge ch1 .challenger).approvals.get .opponent = ch1.approvals.get .opponent :=
  ⟨(approve_challenge_spec ch1 .challenger).2.2.2.2 rfl,
   (approve_challenge_spec ch1 .challenger).1,
   (approve_challenge_spec ch1 .challenger).2.1 .opponent (by decide)⟩

/-- Claim C2: every Negotiate call resets both approvals to false and
forces the status to `negotiating`, whatever the prior state; payload
fields that are absent are left unchanged, as are the fields no payload
carries. -/
theorem negotiate_challenge_spec (ch : Challenge) (p : NegotiateChallengeRequest) :
    (negotiate_challenge ch p).approvals = { challenger := false, opponent := false } ∧
    (negotiate_challenge ch p).status = .negotiating ∧
    (p.proposed_datetime = none →
      (negotiate_challenge ch p).proposed_datetime = ch.proposed_datetime) ∧
    (p.format = none → (negotiate_challenge ch p).format = ch.format) ∧
    (p.venue_id = none → (negotiate_challenge ch p).venue_id = ch.venue_id) ∧
    (p.notes = none → (negotiate_challenge ch p).notes = ch.notes) ∧
    (negotiate_challenge ch p).challenger_team_id = ch.challenger_team_id ∧
    (negotiate_challenge ch p).opponent_team_id = ch.opponent_team_id ∧
    (negotiate_challenge ch p).game = ch.game ∧
    (negotiate_challenge ch p).country = ch.country := by
  refine ⟨rfl, rfl, ?_, ?_, ?_, ?_, rfl, rfl, rfl, rfl⟩ <;>
    intro h <;> simp [negotiate_challenge, h]

/-- Claim C2 witness: a negotiate call with an empty payload on a concrete
challenge resets approvals, sets `negotiating`, and changes nothing else. -/
theorem negotiate_challenge_spec_witness :
    (negotiate_challenge ch1 pNone).approvals = { challenger := false, opponent := false } ∧
    (negotiate_challenge ch1 pNone).status = .negotiating ∧
    (negotiate_challenge ch1 pNone).proposed_datetime = ch1.proposed_datetime ∧
    (negotiate_challenge ch1 pNone).format = ch1.format ∧
    (negotiate_challenge ch1 pNone).venue_id = ch1.venue_id ∧
    (negotiate_challenge ch1 pNone).notes = ch1.notes :=
  ⟨(negotiate_challenge_spec ch1 pNone).1,
   (negotiate_challenge_spec ch1 pNone).2.1,
   (negotiate_challenge_spec ch1 pNone).2.2.1 rfl,
   (negotiate_challenge_spec ch1 pNone).2.2.2.1 rfl,
   (negotiate_challenge_spec ch1 pNone).2.2.2.2.1 rfl,
   (negotiate_challenge_spec ch1 pNone).2.2.2.2.2.1 rfl⟩

def bk1 : CreateBookingRequest :=
  { venue_id := "v1", start_datetime := "2024-01-01T10:00:00", end_datetime := none }

/-- Claim C4: Book on an existing Challenge fails with ConstraintViolation
iff its status is outside {proposed, negotiating, approved}; on success a
pending Booking referencing the challenge is created, the status becomes
`booked`, the venue id is overwritten with the supplied one, and the
outcome never depends on the approvals. -/
theorem create_booking_spec (ch : Challenge) (cid : String) (p : CreateBookingRequest) :
    (create_booking_for_challenge ch cid p = .error .constraintViolation ↔
      ¬ (ch.status = .proposed ∨ ch.status = .negotiating ∨ ch.status = .approved)) ∧
    ((ch.status = .proposed ∨ ch.status = .negotiating ∨ ch.status = .approved) →
      create_booking_for_challenge ch cid p =
        .ok ({ challenge_id := cid, venue_id := p.venue_id,
               start_datetime := p.start_datetime, end_datetime := p.end_datetime,
               status := .pending },
             { ch with status := .booked, venue_id := some p.venue_id })) ∧
    (∀ a : Approvals,
      (create_booking_for_challenge { ch with approvals := a } cid p).isOk =
        (create_booking_for_challenge ch cid p).isOk) := by
  obtain ⟨c1, c2, c3, c4, c5, c6, c7, st, appr, c8⟩ := ch
  cases st <;>
    refine ⟨?_, ?_, ?_⟩ <;>
    simp [create_booking_for_challenge, Except.isOk, Except.toBool]

/-- Claim C4 witness: booking a concrete proposed challenge yields the
pending booking and the booked challenge with the supplied venue. -/
theorem create_booking_spec_witness :
    create_booking_for_challenge ch1 "c1" bk1 =
      .ok ({ challenge_id := "c1", venue_id := "v1",
             start_datetime := "2024-01-01T10:00:00", end_datetime := none,
             status := .pending },
           { ch1 with status := .booked, venue_id := some "v1" }) :=
  (create_booking_spec ch1 "c1" bk1).2.1 (Or.inl rfl)

/-- Claim C5: with both teams existing, Propose fails with
ConstraintViolation exactly when the teams' countries or games disagree
with each other or with the request; on agreement it creates a Challenge
in state `proposed` with both approvals false. -/
theorem propose_challenge_spec (teams : List (String × Team)) (p : ProposeChallengeRequest)
    (t1 t2 : Team) (h1 : findOne teams p.challenger_team_id = some t1)
    (h2 : findOne teams p.opponent_team_id = some t2) :
    (propose_challenge teams p = .error .constraintViolation ↔
      (t1.country ≠ t2.country ∨ t1.country ≠ p.country ∨ t2.country ≠ p.country ∨
       t1.game ≠ t2.game ∨ t1.game ≠ p.game ∨ t2.game ≠ p.game)) ∧
    ((t1.country = t2.country ∧ t1.country = p.country ∧ t1.game = t2.game ∧
        t1.game = p.game) →
      ∃ chOut, propose_challenge teams p = .ok chOut ∧ chOut.status = .proposed ∧
        chOut.approvals = { challenger := false, opponent := false } ∧
        chOut.challenger_team_id = p.challenger_team_id ∧
        chOut.opponent_team_id = p.opponent_team_id) := by
  have key : propose_challenge teams p = .error .constraintViolation ↔
      ((t1.country ≠ t2.country ∨ t1.country ≠ p.country) ∨
       (t1.game ≠ t2.game ∨ t1.game ≠ p.game)) := by
    simp only [propose_challenge, h1, h2]
    by_cases hc : t1.country ≠ t2.country ∨ t1.country ≠ p.country
    · simp [hc]
    · by_cases hg : t1.game ≠ t2.game ∨ t1.game ≠ p.game
      · simp [hc, hg]
      · simp [hc, hg]
  constructor
  · rw [key]
    constructor
    · rintro ((h | h) | (h | h))
      · exact Or.inl h
      · exact Or.inr (Or.inl h)
      · exact Or.inr (Or.inr (Or.inr (Or.inl h)))
      · exact Or.inr (Or.inr (Or.inr (Or.inr (Or.inl h))))
    · rintro (h | h | h | h | h | h)
      · exact Or.inl (Or.inl h)
      · exact Or.inl (Or.inr h)
      · by_cases h12 : t1.country = t2.country
        · refine Or.inl (Or.inr fun h1p => h ?_)
          rw [← h12, h1p]
        · exact Or.inl (Or.inl h12)
      · exact Or.inr (Or.inl h)
      · exact Or.inr (Or.inr h)
      · by_cases h12 : t1.game = t2.game
        · refine Or.inr (Or.inr fun h1p => h ?_)
          rw [← h12, h1p]
        · exact Or.inr (Or.inl h12)
  · rintro ⟨hc12, hc1p, hg12, hg1p⟩
    refine ⟨{ challenger_team_id := p.challenger_team_id,
              opponent_team_id := p.opponent_team_id, game := p.game,
              country := p.country, proposed_datetime := p.proposed_datetime,
              format := p.format, venue_id := p.venue_id, status := .proposed,
              approvals := { challenger := false, opponent := false },
              notes := p.notes }, ?_, rfl, rfl, rfl, rfl⟩
    have hc2p : t2.country = p.country := hc12 ▸ hc1p
    have hg2p : t2.game = p.game := hg12 ▸ hg1p
    simp only [propose_challenge, h1, h2]
    simp [hc12, hc1p, hg12, hg1p, hc2p, hg2p]

def teamA5 : Team :=
  { name := "Alpha", game := "valkyrie", country := "US", captain_user_id := "u1",
    member_user_ids := ["u1"], achievements := [], stats := defaultStats }

def teamB5 : Team :=
  { teamA5 with name := "Beta", captain_user_id := "u2", member_user_ids := ["u2"] }

def teams5 : List (String × Team) := [("A", teamA5), ("B", teamB5)]

def prop5 : ProposeChallengeRequest :=
  { challenger_team_id := "A", opponent_team_id := "B", game := "valkyrie", country := "US",
    proposed_datetime := none, format := .BO3, venue_id := none, notes := none }

/-- Claim C5 witness: proposing between two agreeing concrete teams
succeeds with a `proposed`, unapproved challenge. -/
theorem propose_challenge_spec_witness :
    ∃ chOut, propose_challenge teams5 prop5 = .ok chOut ∧ chOut.status = .proposed ∧
      chOut.approvals = { challenger := false, opponent := false } ∧
      chOut.challenger_team_id = prop5.challenger_team_id ∧
      chOut.opponent_team_id = prop5.opponent_team_id :=
  (propose_challenge_spec teams5 prop5 teamA5 teamB5 rfl rfl).2 (by decide)

def ch6 : Challenge :=
  { ch1 with status := .completed, approvals := { challenger := true, opponent := true } }

/-- Claim C6 counterexample: a Challenge in the terminal state `completed`
is moved to `negotiating` by a Negotiate call (the handler has no status
guard), so terminal states can be exited. -/
theorem terminal_exit_counterexample :
    ch6.status = .completed ∧ (negotiate_challenge ch6 pNone).status ≠ ch6.status :=
  ⟨rfl, by decide⟩

def bk6 : CreateBookingRequest :=
  { venue_id := "v6", start_datetime := "2024-02-02T10:00:00", end_datetime := none }

/-- Claim C6 amended: terminal statuses are not enforced by the listed
operations, each of which acts with no regard to the prior status —
Negotiate sets every Challenge's status (terminal included) to
`negotiating`; Approve sets it to `approved` whenever both approvals are
true after the call; Record Result with a participant winner succeeds at
any status and sets `completed`; cancelling a Booking sets the owning
Challenge to `approved` whatever its prior status; among the listed
operations only Book refuses a terminal-status Challenge, failing with
ConstraintViolation. -/
theorem terminal_states_not_enforced (ch : Challenge) (cid : String)
    (bp : CreateBookingRequest) (np : NegotiateChallengeRequest) (b : Booking)
    (r : Role) (teams : List (String × Team)) (w : String) (sa sb : Int) :
    (negotiate_challenge ch np).status = .negotiating ∧
    (((approve_challenge ch r).approvals.challenger &&
        (approve_challenge ch r).approvals.opponent) = true →
      (approve_challenge ch r).status = .approved) ∧
    ((w = ch.challenger_team_id ∨ w = ch.opponent_team_id) →
      ∃ m ch' teams', record_match_result ch teams cid w sa sb = .ok (m, ch', teams') ∧
        ch'.status = .completed) ∧
    (confirm_booking b ch false).2.status = .approved ∧
    ((ch.status = .completed ∨ ch.status = .rejected ∨ ch.status = .cancelled) →
      create_booking_for_challenge ch cid bp = .error .constraintViolation) := by
  refine ⟨rfl, ?_, ?_, rfl, ?_⟩
  · intro h
    obtain ⟨c1, c2, c3, c4, c5, c6, c7, st, appr, c8⟩ := ch
    obtain ⟨ac, ao⟩ := appr
    cases r <;> cases ac <;> cases ao <;>
      simp_all [approve_challenge, Approvals.setTrue]
  · intro hw
    refine ⟨{ challenge_id := cid, venue_id := ch.venue_id.getD "", game := ch.game,
              format := ch.format, team_a_id := ch.challenger_team_id,
              team_b_id := ch.opponent_team_id,
              result := some { winner_team_id := w, score_a := sa, score_b := sb },
              status := .completed },
            { ch with status := .completed },
            (if sa = sb then
               update_stats (update_stats teams ch.challenger_team_id false true)
                 ch.opponent_team_id false true
             else
               update_stats (update_stats teams w true false)
                 (if w = ch.challenger_team_id then ch.opponent_team_id
                  else ch.challenger_team_id) false false),
            ?_, rfl⟩
    simp only [record_match_result]
    rw [if_neg (not_not_intro hw)]
  · rintro (h | h | h) <;> simp [create_booking_for_challenge, h]

def ch6r : Challenge := { ch6 with status := .rejected }

def ch6c : Challenge := { ch6 with status := .cancelled }

def bkg6 : Booking :=
  { challenge_id := "c6", venue_id := "v6", start_datetime := "2024-02-02T10:00:00",
    end_datetime := none, status := .pending }

/-- Claim C6 amended witness, each part on a concrete terminal-status
challenge: Negotiate moves a completed challenge to `negotiating`; Approve
moves a completed challenge with both approvals to `approved`; Record
Result moves a rejected challenge to `completed`; cancelling a booking
moves a cancelled challenge to `approved`; Book on a completed challenge
is rejected with ConstraintViolation. -/
theorem terminal_states_not_enforced_witness :
    (negotiate_challenge ch6 pNone).status = .negotiating ∧
    (approve_challenge ch6 .challenger).status = .approved ∧
    (∃ m ch' teams', record_match_result ch6r teams5 "c6" "A" 3 1 = .ok (m, ch', teams') ∧
      ch'.status = .completed) ∧
    (confirm_booking bkg6 ch6c false).2.status = .approved ∧
    create_booking_for_challenge ch6 "c6" bk6 = .error .constraintViolation :=
  ⟨(terminal_states_not_enforced ch6 "c6" bk6 pNone bkg6 .challenger teams5 "A" 3 1).1,
   (terminal_states_not_enforced ch6 "c6" bk6 pNone bkg6 .challenger teams5 "A" 3 1).2.1
     (by decide),
   (terminal_states_not_enforced ch6r "c6" bk6 pNone bkg6 .challenger teams5 "A" 3 1).2.2.1
     (Or.inl rfl),
   (terminal_states_not_enforced ch6c "c6" bk6 pNone bkg6 .challenger teams5 "A" 3 1).2.2.2.1,
   (terminal_states_not_enforced ch6 "c6" bk6 pNone bkg6 .challenger teams5 "A" 3 1).2.2.2.2
     (Or.inl rfl)⟩

def team8 : Team :=
  { name := "NoCap", game := "g", country := "US", captain_user_id := "",
    member_user_ids := [], achievements := [], stats := defaultStats }

/-- Claim C8 counterexample: creating a team whose `captain_user_id` is the
empty string (with an empty member list) stores a team whose captain is not
a member — the handler's truthiness guard skips the auto-insert. -/
theorem captain_membership_counterexample :
    (create_team team8).captain_user_id ∉ (create_team team8).member_user_ids := by
  decide

/-- Claim C8 amended: for every creation payload with a non-empty
`captain_user_id`, the stored team satisfies
`captain_user_id ∈ member_user_ids`. -/
theorem captain_membership (payload : Team) (h : payload.captain_user_id ≠ "") :
    (create_team payload).captain_user_id ∈ (create_team payload).member_user_ids := by
  unfold create_team
  by_cases hm : payload.captain_user_id ∈ payload.member_user_ids
  · rw [if_neg (by simp [hm])]
    exact hm
  · rw [if_pos ⟨h, hm⟩]
    simp

def team8good : Team := { team8 with captain_user_id := "u9" }

/-- Claim C8 amended witness: a concrete non-empty captain is auto-inserted
into the member list. -/
theorem captain_membership_witness :
    (create_team team8good).captain_user_id ∈ (create_team team8good).member_user_ids :=
  captain_membership team8good (by decide)

def team9 : Team :=
  { name := "Fake", game := "g", country := "US", captain_user_id := "u",
    member_user_ids := ["u"], achievements := [],
    stats := { matchesPlayed := 1, wins := 0, losses := 0, draws := 0, points := 0 } }

/-- Claim C9 counterexample: the creation endpoint stores the
client-supplied `stats` dict unvalidated, so a team created with
`stats = {matches: 1, wins: 0, losses: 0, draws: 0, points: 0}` violates
`matches = wins + losses + draws` immediately after creation. -/
theorem stats_invariant_counterexample : ¬ statsInv (create_team team9).stats := by
  decide

/-- Claim C9 amended: the stats invariant (all counters non-negative,
`matches = wins + losses + draws`) holds after creation whenever the
supplied stats satisfy it — in particular for the schema's default all-zero
stats — and is preserved, for every team in the store, by every Stats
Aggregator update applied during Record Result. -/
theorem stats_invariant_preserved :
    (∀ payload : Team, statsInv payload.stats → statsInv (create_team payload).stats) ∧
    statsInv defaultStats ∧
    (∀ teams team_id won draw,
      (∀ q ∈ teams, statsInv q.2.stats) →
      ∀ q ∈ update_stats teams team_id won draw, statsInv q.2.stats) := by
  refine ⟨?_, by decide, ?_⟩
  · intro payload h
    unfold create_team
    split <;> exact h
  · intro teams team_id won draw hInv
    exact update_stats_storeInv teams team_id won draw hInv

def teams9 : List (String × Team) := [("A", teamA5)]

/-- Claim C9 amended witness: a concrete creation with invariant-satisfying
stats, and a concrete win update over a concrete store, both preserve the
invariant. -/
theorem stats_invariant_preserved_witness :
    statsInv (create_team team8good).stats ∧
    (∀ q ∈ update_stats teams9 "A" true false, statsInv q.2.stats) :=
  ⟨stats_invariant_preserved.1 team8good (by decide),
   stats_invariant_preserved.2.2 teams9 "A" true false (by decide)⟩

def bk10 : CreateBookingRequest :=
  { venue_id := "ghost-venue", start_datetime := "2024-03-03T10:00:00", end_datetime := none }

def np10 : NegotiateChallengeRequest := { pNone with venue_id := some "ghost-venue" }

/-- Claim C10: neither Book nor Negotiate consults the Venue collection —
neither handler takes it as input at all — so for every venue id string,
Book never fails with InvalidReference, an eligible challenge books
successfully storing that string, and Negotiate stores any supplied venue
id; no InvalidReference is ever raised by these operations. -/
theorem venue_unchecked_spec (ch : Challenge) (cid : String) (bp : CreateBookingRequest)
    (np : NegotiateChallengeRequest) :
    create_booking_for_challenge ch cid bp ≠ .error .invalidReference ∧
    ((ch.status = .proposed ∨ ch.status = .negotiating ∨ ch.status = .approved) →
      ∃ b ch', create_booking_for_challenge ch cid bp = .ok (b, ch') ∧
        b.venue_id = bp.venue_id ∧ ch'.venue_id = some bp.venue_id) ∧
    (∀ v, np.venue_id = some v → (negotiate_challenge ch np).venue_id = some v) := by
  refine ⟨?_, ?_, ?_⟩
  · unfold create_booking_for_challenge
    split <;> simp
  · intro h
    have hel : ch.status = .approved ∨ ch.status = .negotiating ∨ ch.status = .proposed := by
      tauto
    exact ⟨{ challenge_id := cid, venue_id := bp.venue_id,
             start_datetime := bp.start_datetime, end_datetime := bp.end_datetime,
             status := .pending },
           { ch with status := .booked, venue_id := some bp.venue_id },
           by unfold create_booking_for_challenge; rw [if_neg (not_not_intro hel)], rfl, rfl⟩
  · intro v hv
    simp [negotiate_challenge, hv]

theorem update_stats_pair (teams : List (String × Team)) (id1 id2 : String)
    (t1 t2 : Team) (w1 d1 w2 d2 : Bool)
    (h1 : findOne teams id1 = some t1) (h2 : findOne teams id2 = some t2)
    (hne : id1 ≠ id2) :
    findOne (update_stats (update_stats teams id1 w1 d1) id2 w2 d2) id1 =
      some { t1 with stats := bumpStats t1.stats w1 d1 } ∧
    findOne (update_stats (update_stats teams id1 w1 d1) id2 w2 d2) id2 =
      some { t2 with stats := bumpStats t2.stats w2 d2 } := by
  have e1 : update_stats teams id1 w1 d1 = setStats teams id1 (bumpStats t1.stats w1 d1) :=
    update_stats_of_found teams id1 t1 w1 d1 h1
  have hf2 : findOne (update_stats teams id1 w1 d1) id2 = some t2 := by
    rw [e1, findOne_setStats_ne teams id1 id2 _ (Ne.symm hne)]
    exact h2
  have e2 : update_stats (update_stats teams id1 w1 d1) id2 w2 d2 =
      setStats (update_stats teams id1 w1 d1) id2 (bumpStats t2.stats w2 d2) :=
    update_stats_of_found _ id2 t2 w2 d2 hf2
  constructor
  · rw [e2, findOne_setStats_ne _ id2 id1 _ hne, e1]
    exact findOne_setStats_self teams id1 _ t1 h1
  · rw [e2]
    exact findOne_setStats_self _ id2 _ t2 hf2

/-- Claim C3: Record Result on an existing Challenge whose winner is one of
its two (distinct) teams, both present in the store: when the scores
differ, the team equal to the winner id gains matches+1, wins+1, points+3
and the other team gains matches+1, losses+1, points+0; on equal scores
both teams gain matches+1, draws+1, points+1.  The explicit result records
fix every stats field, so all other stats fields and team fields are
unchanged.  The claim speaks of "the other team", so the two team ids are
taken distinct. -/
theorem record_match_result_stats_spec (ch : Challenge) (teams : List (String × Team))
    (cid w : String) (sa sb : Int) (ta tb : Team)
    (hA : findOne teams ch.challenger_team_id = some ta)
    (hB : findOne teams ch.opponent_team_id = some tb)
    (hne : ch.challenger_team_id ≠ ch.opponent_team_id)
    (hw : w = ch.challenger_team_id ∨ w = ch.opponent_team_id) :
    ∃ m ch' teams', record_match_result ch teams cid w sa sb = .ok (m, ch', teams') ∧
      ch'.status = .completed ∧
      (sa = sb →
        findOne teams' ch.challenger_team_id = some { ta with stats := drawGain ta.stats } ∧
        findOne teams' ch.opponent_team_id = some { tb with stats := drawGain tb.stats }) ∧
      (sa ≠ sb →
        findOne teams' w =
          some { (if w = ch.challenger_team_id then ta else tb) with
                 stats := winGain (if w = ch.challenger_team_id then ta else tb).stats } ∧
        findOne teams'
            (if w = ch.challenger_team_id then ch.opponent_team_id
             else ch.challenger_team_id) =
          some { (if w = ch.challenger_team_id then tb else ta) with
                 stats := lossGain (if w = ch.challenger_team_id then tb else ta).stats }) := by
  have hres : record_match_result ch teams cid w sa sb =
      .ok ({ challenge_id := cid, venue_id := ch.venue_id.getD "", game := ch.game,
             format := ch.format, team_a_id := ch.challenger_team_id,
             team_b_id := ch.opponent_team_id,
             result := some { winner_team_id := w, score_a := sa, score_b := sb },
             status := .completed },
           { ch with status := .completed },
           if sa = sb then
             update_stats (update_stats teams ch.challenger_team_id false true)
               ch.opponent_team_id false true
           else
             update_stats (update_stats teams w true false)
               (if w = ch.challenger_team_id then ch.opponent_team_id
                else ch.challenger_team_id) false false) := by
    simp only [record_match_result]
    rw [if_neg (not_not_intro hw)]
  refine ⟨_, _, _, hres, rfl, ?_, ?_⟩
  · intro hsb
    rw [if_pos hsb]
    obtain ⟨hx, hy⟩ :=
      update_stats_pair teams ch.challenger_team_id ch.opponent_team_id ta tb
        false true false true hA hB hne
    rw [bumpStats_drawGain] at hx hy
    exact ⟨hx, hy⟩
  · intro hsb
    rw [if_neg hsb]
    rcases hw with hw | hw
    · subst hw
      rw [if_pos rfl, if_pos rfl, if_pos rfl]
      obtain ⟨hx, hy⟩ :=
        update_stats_pair teams ch.challenger_team_id ch.opponent_team_id ta tb
          true false false false hA hB hne
      rw [bumpStats_winGain] at hx
      rw [bumpStats_lossGain] at hy
      exact ⟨hx, hy⟩
    · subst hw
      have hBA : ¬(ch.opponent_team_id = ch.challenger_team_id) := fun hh => hne hh.symm
      rw [if_neg hBA, if_neg hBA, if_neg hBA]
      obtain ⟨hx, hy⟩ :=
        update_stats_pair teams ch.opponent_team_id ch.challenger_team_id tb ta
          true false false false hB hA (Ne.symm hne)
      rw [bumpStats_winGain] at hx
      rw [bumpStats_lossGain] at hy
      exact ⟨hx, hy⟩

/-- Claim C3 witness: scores (3, 1) with the challenger winning, on a
concrete store of two teams. -/
theorem record_match_result_stats_spec_witness :
    ∃ m ch' teams', record_match_result ch1 teams5 "c3" "A" 3 1 = .ok (m, ch', teams') ∧
      ch'.status = .completed ∧
      ((3 : Int) = 1 →
        findOne teams' ch1.challenger_team_id =
          some { teamA5 with stats := drawGain teamA5.stats } ∧
        findOne teams' ch1.opponent_team_id =
          some { teamB5 with stats := drawGain teamB5.stats }) ∧
      ((3 : Int) ≠ 1 →
        findOne teams' "A" =
          some { (if "A" = ch1.challenger_team_id then teamA5 else teamB5) with
                 stats := winGain (if "A" = ch1.challenger_team_id then teamA5
                   else teamB5).stats } ∧
        findOne teams'
            (if "A" = ch1.challenger_team_id then ch1.opponent_team_id
             else ch1.challenger_team_id) =
          some { (if "A" = ch1.challenger_team_id then teamB5 else teamA5) with
                 stats := lossGain (if "A" = ch1.challenger_team_id then teamB5
                   else teamA5).stats }) :=
  record_match_result_stats_spec ch1 teams5 "c3" "A" 3 1 teamA5 teamB5 rfl rfl
    (by decide) (Or.inl rfl)

/-- Claim C10 witness: a nonexistent venue id string is accepted and stored
by both Book and Negotiate on a concrete challenge. -/
theorem venue_unchecked_spec_witness :
    (∃ b ch', create_booking_for_challenge ch1 "c9" bk10 = .ok (b, ch') ∧
      b.venue_id = bk10.venue_id ∧ ch'.venue_id = some bk10.venue_id) ∧
    (negotiate_challenge ch1 np10).venue_id = some "ghost-venue" :=
  ⟨(venue_unchecked_spec ch1 "c9" bk10 np10).2.1 (Or.inl rfl),
   (venue_unchecked_spec ch1 "c9" bk10 np10).2.2 "ghost-venue" rfl⟩

/-! ### Leaderboard lemmas -/

theorem lexGe_total (a b : Int × Int) : lexGe a b = true ∨ lexGe b a = true := by
  simp only [lexGe, Bool.or_eq_true, Bool.and_eq_true, decide_eq_true_eq]
  omega

theorem lexGe_trans (a b c : Int × Int) (h1 : lexGe a b = true) (h2 : lexGe b c = true) :
    lexGe a c = true := by
  simp only [lexGe, Bool.or_eq_true, Bool.and_eq_true, decide_eq_true_eq] at h1 h2 ⊢
  omega

theorem sorted_insertionSort_lbRel (l : List (String × Team)) :
    List.Sorted lbRel (l.insertionSort lbRel) := by
  haveI : IsTotal (String × Team) lbRel := ⟨fun p q => lexGe_total _ _⟩
  haveI : IsTrans (String × Team) lbRel := ⟨fun p q r => lexGe_trans _ _ _⟩
  exact List.sorted_insertionSort lbRel l

theorem filter_matchesFilt_none (gf : Option String) (teams : List (String × Team)) :
    (teams.filter fun p => matchesFilt gf none p.2) =
      (teams.filter fun p =>
        match gf with
        | none => true
        | some g => decide (p.2.game = g)) :=
  List.filter_congr fun p _ => by simp [matchesFilt]

theorem filter_matchesFilt_some (gf : Option String) (c : String)
    (teams : List (String × Team)) :
    (teams.filter fun p => matchesFilt gf (some c) p.2) =
      ((teams.filter fun p =>
          match gf with
          | none => true
          | some g => decide (p.2.game = g)).filter
        fun p => decide (p.2.country = c)) := by
  rw [List.filter_filter]
  exact List.filter_congr fun p _ => by
    simp [matchesFilt, Bool.and_comm]

theorem gameStep_eq_filter (game : Option String) (teams : List (String × Team)) :
    (teams.filter fun p =>
      match (if truthy game then game else none : Option String) with
      | none => true
      | some g => decide (p.2.game = g)) = gameStep game teams := by
  cases game with
  | none => simp [truthy, gameStep]
  | some g =>
    by_cases hg : g = ""
    · subst hg
      simp [truthy, gameStep]
    · simp [truthy, hg, gameStep]

theorem countryStep_global (country : Option String) (l : List (String × Team)) :
    countryStep .globalScope country l = l := by
  simp [countryStep]

theorem countryStep_local_some (c : String) (l : List (String × Team)) :
    countryStep .localScope (some c) l = l.filter fun p => decide (p.2.country = c) := by
  simp [countryStep]

def teamDE : Team := { teamA5 with country := "DE" }

def teamsDE : List (String × Team) := [("t1", teamDE)]

/-- Claim C7 counterexample: with a single German team stored, a
global-scope query that supplies country "US" returns that team — the code
adds the country filter only in the local-scope branch — whereas the
claimed algorithm (filter by the supplied game and country filters) would
return the empty list. -/
theorem leaderboard_country_counterexample :
    leaderboard teamsDE .globalScope none (some "US") 20 =
      .ok [renderTeam ("t1", teamDE)] ∧
    leaderboard_claimed teamsDE .globalScope none (some "US") 20 = .ok [] ∧
    ([renderTeam ("t1", teamDE)] : List LeaderboardEntry) ≠ [] :=
  ⟨rfl, rfl, by decide⟩

/-- Claim C7 amended: the leaderboard filters by the supplied (non-empty)
game filter and, only when scope is local, by the supplied country filter —
a country supplied at global scope is ignored; it sorts the filtered teams
in descending order by the composite key (points, wins) and truncates to
`limit`; it fails with ConstraintViolation exactly when scope is local and
no non-empty country is supplied.  Stated as: the code equals the
spec-worded pipeline, the error characterisation, and sortedness of every
successful output. -/
theorem leaderboard_spec_thm (teams : List (String × Team)) (scope : Scope)
    (game country : Option String) (limit : Nat) :
    leaderboard teams scope game country limit =
      leaderboard_amended_spec teams scope game country limit ∧
    (leaderboard teams scope game country limit = .error .constraintViolation ↔
      (scope = .localScope ∧ truthy country = false)) ∧
    (∀ out, leaderboard teams scope game country limit = .ok out →
      out.Pairwise fun x y =>
        lexGe (x.stats.points, x.stats.wins) (y.stats.points, y.stats.wins) = true) := by
  refine ⟨?_, ?_, ?_⟩
  · cases scope
    case localScope =>
      cases country with
      | none => simp [leaderboard, leaderboard_amended_spec, truthy]
      | some c =>
        by_cases hc : c = ""
        · subst hc
          simp [leaderboard, leaderboard_amended_spec, truthy]
        · have htc : truthy (some c) = true := by simp [truthy, hc]
          have hcond : ¬(Scope.localScope = Scope.localScope ∧ truthy (some c) = false) := by
            simp [htc]
          have lhs_eq : leaderboard teams .localScope game (some c) limit =
              .ok (List.map renderTeam (List.take limit (List.insertionSort lbRel
                (teams.filter fun p =>
                  matchesFilt (if truthy game then game else none) (some c) p.2)))) := by
            simp only [leaderboard]
            rw [if_pos htc]
          have rhs_eq : leaderboard_amended_spec teams .localScope game (some c) limit =
              .ok (List.map renderTeam (List.take limit (List.insertionSort lbRel
                (countryStep .localScope (some c) (gameStep game teams))))) := by
            unfold leaderboard_amended_spec
            rw [if_neg hcond]
          rw [lhs_eq, rhs_eq, countryStep_local_some, filter_matchesFilt_some,
            gameStep_eq_filter]
    case globalScope =>
      have hGL : ¬(Scope.globalScope = Scope.localScope) := fun h => Scope.noConfusion h
      have hcondg : ¬(Scope.globalScope = Scope.localScope ∧ truthy country = false) :=
        fun h => hGL h.1
      have rhs_eq : leaderboard_amended_spec teams .globalScope game country limit =
          .ok (List.map renderTeam (List.take limit (List.insertionSort lbRel
            (countryStep .globalScope country (gameStep game teams))))) := by
        unfold leaderboard_amended_spec
        rw [if_neg hcondg]
      simp only [leaderboard]
      rw [rhs_eq, countryStep_global, filter_matchesFilt_none, gameStep_eq_filter]
  · cases scope
    case localScope =>
      cases htc : truthy country <;> simp [leaderboard, htc]
    case globalScope =>
      simp [leaderboard]
  · intro out hout
    have hsorted : ∀ l : List (String × Team),
        (((l.insertionSort lbRel).take limit).map renderTeam).Pairwise fun x y =>
          lexGe (x.stats.points, x.stats.wins) (y.stats.points, y.stats.wins) = true := by
      intro l
      refine List.Pairwise.map renderTeam (fun a b h => h) ?_
      exact List.Pairwise.sublist (List.take_sublist limit _)
        (sorted_insertionSort_lbRel l)
    cases scope
    case localScope =>
      cases htc : truthy country
      · simp [leaderboard, htc] at hout
      · simp only [leaderboard, htc, if_true, Except.ok.injEq] at hout
        subst hout
        exact hsorted _
    case globalScope =>
      simp only [leaderboard, Except.ok.injEq] at hout
      subst hout
      exact hsorted _

def lbT1 : Team :=
  { name := "T1", game := "g", country := "US", captain_user_id := "u",
    member_user_ids := ["u"], achievements := [],
    stats := { matchesPlayed := 0, wins := 5, losses := 0, draws := 0, points := 10 } }

def lbT2 : Team :=
  { lbT1 with
    name := "T2"
    stats := { matchesPlayed := 0, wins := 3, losses := 0, draws := 0, points := 10 } }

def lbT3 : Team :=
  { lbT1 with
    name := "T3"
    stats := { matchesPlayed := 0, wins := 9, losses := 0, draws := 0, points := 7 } }

def lbTeams : List (String × Team) := [("t1", lbT1), ("t2", lbT2), ("t3", lbT3)]

/-- Claim C7 amended witness: the spec's own example — teams with
(points, wins) of (10,5), (10,3), (7,9) and limit 2 — yields the first two
entries in that order; its output is sorted and the code agrees with the
amended pipeline on this query. -/
theorem leaderboard_spec_thm_witness :
    ([renderTeam ("t1", lbT1), renderTeam ("t2", lbT2)] : List LeaderboardEntry).Pairwise
      (fun x y =>
        lexGe (x.stats.points, x.stats.wins) (y.stats.points, y.stats.wins) = true) ∧
    leaderboard lbTeams .globalScope none none 2 =
      leaderboard_amended_spec lbTeams .globalScope none none 2 :=
  ⟨(leaderboard_spec_thm lbTeams .globalScope none none 2).2.2
      [renderTeam ("t1", lbT1), renderTeam ("t2", lbT2)] rfl,
   (leaderboard_spec_thm lbTeams .globalScope none none 2).1⟩

end GamingPlatform
